import Mathlib

/-!
Verification development for the VeeamVSP1FileBackup repository, a pair of
Python hook scripts (fixed_hnas_pre_backup.py and fixed_hnas_post_backup.py)
that manage Hitachi HNAS filesystem snapshots and SMB shares around Veeam
backup jobs.  The definitions below are a shallow embedding of the scripts:
remote HTTP interactions are represented by explicit oracle functions in an
HNASWorld record, environment variables by a lookup function, and the two
main procedures by pure functions from those inputs to result records.
Deletion of a snapshot or share is represented by the sweep issuing a delete
request for its object id (an attemptDelete outcome); the remote result of
that request is a separate oracle.
-/

namespace HNAS

/-! ## Python primitives used by the scripts -/

/-- Numeric value of an ASCII digit character. -/
def charVal (c : Char) : Nat := c.toNat - 48

/-- Digits of a Python integer literal after the first digit: runs of digits
in which a single underscore may appear between two digits, as accepted by
the Python int constructor. -/
def digitsRun : List Char → Nat → Option Nat
  | [], acc => some acc
  | '_' :: c :: rest, acc =>
      if c.isDigit then digitsRun rest (acc * 10 + charVal c) else none
  | ['_'], _ => none
  | c :: rest, acc =>
      if c.isDigit then digitsRun rest (acc * 10 + charVal c) else none

/-- Parse a nonempty unsigned run of digits (with optional single
underscores between digits), as the Python int constructor does. -/
def parseUnsigned : List Char → Option Nat
  | [] => none
  | c :: rest => if c.isDigit then digitsRun rest (charVal c) else none

/-- Leading and trailing whitespace removal, as Python str.strip does
before int conversion. -/
def pyStrip (s : String) : List Char :=
  ((s.toList.dropWhile Char.isWhitespace).reverse.dropWhile Char.isWhitespace).reverse

/-- Model of the Python built-in int applied to a string: strip whitespace,
optional sign, then a nonempty digit run; none models the ValueError case. -/
def pyInt (s : String) : Option Int :=
  match pyStrip s with
  | '+' :: rest => (parseUnsigned rest).map fun n => (n : Int)
  | '-' :: rest => (parseUnsigned rest).map fun n => -(n : Int)
  | cs => (parseUnsigned cs).map fun n => (n : Int)

/-- Model of str.strip with no argument: remove whitespace from both
ends. -/
def pyTrim (s : String) : String := ⟨pyStrip s⟩

/-- Model of str.lower (the configuration values compared here are
ASCII). -/
def pyLower (s : String) : String := ⟨s.toList.map Char.toLower⟩

/-- Model of str.split with a single-character separator: the separator
occurrences delimit the pieces, and adjacent separators produce empty
pieces. -/
def pySplitChar (sep : Char) : List Char → List (List Char)
  | [] => [[]]
  | c :: rest =>
      let r := pySplitChar sep rest
      if c = sep then [] :: r
      else
        match r with
        | [] => [[c]]
        | h :: t => (c :: h) :: t

/-- Model of str.split on one string. -/
def pySplit (sep : Char) (s : String) : List String :=
  (pySplitChar sep s.toList).map fun l => (⟨l⟩ : String)

/-- Model of str.startswith. -/
def pyStartsWith (s pfx : String) : Bool := pfx.toList.isPrefixOf s.toList

/-! ## Model of datetime.strptime with format %Y%m%d_%H%M%S

CPython strptime compiles the format to a regular expression with one
alternation per field (TimeRE), takes the first match in backtracking
order, raises ValueError when characters remain unconsumed, and finally
constructs a datetime, which validates the field ranges.  Each field
matcher below returns its candidate parses in regex preference order. -/

structure PyDateTime where
  year : Nat
  month : Nat
  day : Nat
  hour : Nat
  minute : Nat
  second : Nat
deriving DecidableEq, Repr

/-- Field matcher for %Y: exactly four digits. -/
def matchYear : List Char → List (Nat × List Char)
  | a :: b :: c :: d :: rest =>
      if a.isDigit && b.isDigit && c.isDigit && d.isDigit then
        [(((charVal a * 10 + charVal b) * 10 + charVal c) * 10 + charVal d, rest)]
      else []
  | _ => []

/-- Field matcher for %m, alternatives in regex order. -/
def matchMonth (cs : List Char) : List (Nat × List Char) :=
  (match cs with
   | '1' :: c :: rest => if '0' ≤ c && c ≤ '2' then [(10 + charVal c, rest)] else []
   | _ => []) ++
  (match cs with
   | '0' :: c :: rest => if '1' ≤ c && c ≤ '9' then [(charVal c, rest)] else []
   | _ => []) ++
  (match cs with
   | c :: rest => if '1' ≤ c && c ≤ '9' then [(charVal c, rest)] else []
   | _ => [])

/-- Field matcher for %d, alternatives in regex order. -/
def matchDay (cs : List Char) : List (Nat × List Char) :=
  (match cs with
   | '3' :: c :: rest => if c = '0' || c = '1' then [(30 + charVal c, rest)] else []
   | _ => []) ++
  (match cs with
   | a :: c :: rest =>
      if (a = '1' || a = '2') && c.isDigit then [(charVal a * 10 + charVal c, rest)] else []
   | _ => []) ++
  (match cs with
   | '0' :: c :: rest => if '1' ≤ c && c ≤ '9' then [(charVal c, rest)] else []
   | _ => []) ++
  (match cs with
   | c :: rest => if '1' ≤ c && c ≤ '9' then [(charVal c, rest)] else []
   | _ => []) ++
  (match cs with
   | ' ' :: c :: rest => if '1' ≤ c && c ≤ '9' then [(charVal c, rest)] else []
   | _ => [])

/-- Field matcher for %H, alternatives in regex order. -/
def matchHour (cs : List Char) : List (Nat × List Char) :=
  (match cs with
   | '2' :: c :: rest => if '0' ≤ c && c ≤ '3' then [(20 + charVal c, rest)] else []
   | _ => []) ++
  (match cs with
   | a :: c :: rest =>
      if (a = '0' || a = '1') && c.isDigit then [(charVal a * 10 + charVal c, rest)] else []
   | _ => []) ++
  (match cs with
   | c :: rest => if c.isDigit then [(charVal c, rest)] else []
   | _ => [])

/-- Field matcher for %M, alternatives in regex order. -/
def matchMinute (cs : List Char) : List (Nat × List Char) :=
  (match cs with
   | a :: c :: rest =>
      if ('0' ≤ a && a ≤ '5') && c.isDigit then [(charVal a * 10 + charVal c, rest)] else []
   | _ => []) ++
  (match cs with
   | c :: rest => if c.isDigit then [(charVal c, rest)] else []
   | _ => [])

/-- Field matcher for %S, alternatives in regex order (61 is admitted by
the regex and rejected by the datetime constructor). -/
def matchSecond (cs : List Char) : List (Nat × List Char) :=
  (match cs with
   | '6' :: c :: rest => if c = '0' || c = '1' then [(60 + charVal c, rest)] else []
   | _ => []) ++
  (match cs with
   | a :: c :: rest =>
      if ('0' ≤ a && a ≤ '5') && c.isDigit then [(charVal a * 10 + charVal c, rest)] else []
   | _ => []) ++
  (match cs with
   | c :: rest => if c.isDigit then [(charVal c, rest)] else []
   | _ => [])

/-- Literal underscore in the format string. -/
def matchLiteralUnder : List Char → List (List Char)
  | '_' :: rest => [rest]
  | _ => []

/-- All candidate matches of the compiled %Y%m%d_%H%M%S pattern against a
character list, in backtracking preference order, each with the unconsumed
remainder. -/
def strptimeMatches (cs : List Char) : List (PyDateTime × List Char) :=
  (matchYear cs).flatMap fun yr =>
  (matchMonth yr.2).flatMap fun mo =>
  (matchDay mo.2).flatMap fun dy =>
  (matchLiteralUnder dy.2).flatMap fun r4 =>
  (matchHour r4).flatMap fun hr =>
  (matchMinute hr.2).flatMap fun mi =>
  (matchSecond mi.2).map fun sc =>
    (⟨yr.1, mo.1, dy.1, hr.1, mi.1, sc.1⟩, sc.2)

def isLeapYear (y : Nat) : Bool := (y % 4 == 0 && y % 100 != 0) || y % 400 == 0

def daysInMonth (y m : Nat) : Nat :=
  if m = 2 then (if isLeapYear y then 29 else 28)
  else if m = 4 || m = 6 || m = 9 || m = 11 then 30
  else 31

/-- Validation performed by the datetime constructor. -/
def mkDateTime (y m d h mi s : Nat) : Option PyDateTime :=
  if 1 ≤ y && y ≤ 9999 && 1 ≤ m && m ≤ 12 && 1 ≤ d && d ≤ daysInMonth y m
      && h ≤ 23 && mi ≤ 59 && s ≤ 59 then
    some ⟨y, m, d, h, mi, s⟩
  else none

/-- Model of datetime.strptime(s, percent-Y percent-m percent-d underscore
percent-H percent-M percent-S): first regex match in preference order, then
the unconverted-data-remains check, then constructor validation. -/
def strptimeYmdHMS (s : String) : Option PyDateTime :=
  match (strptimeMatches s.toList).head? with
  | none => none
  | some (dt, rest) =>
      if rest = [] then mkDateTime dt.year dt.month dt.day dt.hour dt.minute dt.second
      else none

/-- datetime comparison: lexicographic on the six fields. -/
def dtLt (a b : PyDateTime) : Bool :=
  if a.year ≠ b.year then decide (a.year < b.year)
  else if a.month ≠ b.month then decide (a.month < b.month)
  else if a.day ≠ b.day then decide (a.day < b.day)
  else if a.hour ≠ b.hour then decide (a.hour < b.hour)
  else if a.minute ≠ b.minute then decide (a.minute < b.minute)
  else decide (a.second < b.second)

/-! ## Delete operations (fixed_hnas_post_backup.py, delete_snapshot and
delete_smb_share)

The HTTP layer is abstracted to the observable outcome of one DELETE
request: a status code, or a transport-level failure (any exception other
than HTTPError).  requests.Response.raise_for_status raises HTTPError
exactly for status codes in the 400..599 range. -/

inductive HttpResult where
  | status (code : Nat)
  | transportFailure
deriving DecidableEq, Repr

/-- delete_snapshot: raise_for_status; a 404 HTTPError is logged as a
warning and treated as success; any other HTTPError is failure; any other
exception is failure. -/
def delete_snapshot (r : HttpResult) : Bool :=
  match r with
  | .status code =>
      if 400 ≤ code ∧ code < 600 then
        if code = 404 then true else false
      else true
  | .transportFailure => false

/-- delete_smb_share: same handling as delete_snapshot, duplicated in the
source. -/
def delete_smb_share (r : HttpResult) : Bool :=
  match r with
  | .status code =>
      if 400 ≤ code ∧ code < 600 then
        if code = 404 then true else false
      else true
  | .transportFailure => false

/-! ## Snapshot retention sweep (cleanup_old_snapshots) -/

/-- The creationTime field of a listed snapshot as it arrives in JSON:
an integer, a string, or absent. -/
inductive JsonTime where
  | int (i : Int)
  | str (s : String)
  | missing
deriving DecidableEq, Repr

structure Snapshot where
  creationTime : JsonTime
  objectId : Option String
deriving DecidableEq, Repr

/-- Lines 257-263 of fixed_hnas_post_backup.py: creationTime with default 0
when absent; a string value is converted with int(), and a ValueError skips
the snapshot (none). -/
def normCreationTime : JsonTime → Option Int
  | .int i => some i
  | .str s => pyInt s
  | .missing => some 0

/-- cutoff_time in cleanup_old_snapshots: epoch seconds of now minus
retention_days days. -/
def cutoffTime (now retention_days : Int) : Int := now - retention_days * 86400

/-- What the snapshot sweep does with one listed snapshot. -/
inductive SnapAction where
  | attemptDelete (oid : String)
  | retained
  | unparsableSkipped
  | missingObjectId
deriving DecidableEq, Repr

/-- Per-snapshot decision of cleanup_old_snapshots, lines 255-268: skip with
a warning when the creation-time string does not parse; delete when the
normalized creation time is strictly below the cutoff and the objectId field
is truthy; otherwise retain. -/
def snapAction (cutoff : Int) (sn : Snapshot) : SnapAction :=
  match normCreationTime sn.creationTime with
  | none => .unparsableSkipped
  | some t =>
      if t < cutoff then
        match sn.objectId with
        | some oid => if oid ≠ "" then .attemptDelete oid else .missingObjectId
        | none => .missingObjectId
      else .retained

/-- Object ids for which the snapshot sweep issues a delete request. -/
def snapshotDeleteAttempts (snaps : List Snapshot) (cutoff : Int) : List String :=
  snaps.filterMap fun sn =>
    match snapAction cutoff sn with
    | .attemptDelete oid => some oid
    | _ => none

/-- cleanup_old_snapshots: returns the number of snapshots whose delete
request succeeded; delOk is the oracle for delete_snapshot results. -/
def cleanup_old_snapshots (delOk : String → Bool) (snaps : List Snapshot)
    (cutoff : Int) : Nat :=
  if snaps.isEmpty then 0
  else ((snapshotDeleteAttempts snaps cutoff).filter delOk).length

/-! ## SMB share retention sweep (cleanup_old_smb_shares) -/

structure SmbShare where
  name : Option String
  objectId : Option String
deriving DecidableEq, Repr

/-- share.get with default empty string for the name field. -/
def shareGetName (sh : SmbShare) : String := sh.name.getD ""

/-- get_virtual_server_smb_shares filters the listed shares by name
starting with the configured share-name value. -/
def matchingShares (shares : List SmbShare) (pfx : String) : List SmbShare :=
  shares.filter fun sh => pyStartsWith (shareGetName sh) pfx

/-- Lines 291-295: split the share name on underscores; when there are at
least three parts, the timestamp string is parts[-2] joined to parts[-1]
with an underscore; with fewer parts the body of the if statement does not
run at all. -/
def shareSuffixString (nm : String) : Option String :=
  let parts := pySplit '_' nm
  if parts.length ≥ 3 then
    some (parts.getD (parts.length - 2) "" ++ "_" ++ parts.getD (parts.length - 1) "")
  else none

/-- What the share sweep does with one listed share. -/
inductive ShareSweepAction where
  | attemptDelete (oid : String)
  | retained
  | badTimestampLogged
  | shortNameSkipped
  | missingObjectId
deriving DecidableEq, Repr

/-- Per-share decision of cleanup_old_smb_shares, lines 286-306: names with
fewer than three underscore-separated parts fall through silently; a
timestamp that strptime rejects is skipped with a logged warning; a parsed
timestamp strictly before the cutoff leads to a delete request when the
objectId field is truthy. -/
def shareSweepAction (cutoff : PyDateTime) (sh : SmbShare) : ShareSweepAction :=
  match shareSuffixString (shareGetName sh) with
  | none => .shortNameSkipped
  | some ts =>
      match strptimeYmdHMS ts with
      | none => .badTimestampLogged
      | some dt =>
          if dtLt dt cutoff then
            match sh.objectId with
            | some oid => if oid ≠ "" then .attemptDelete oid else .missingObjectId
            | none => .missingObjectId
          else .retained

/-- Only the ValueError branch of the share sweep emits a warning about the
name format. -/
def sweepLogsWarning : ShareSweepAction → Bool
  | .badTimestampLogged => true
  | _ => false

/-- Object ids for which the share sweep issues a delete request. -/
def shareDeleteAttempts (shares : List SmbShare) (pfx : String)
    (cutoff : PyDateTime) : List String :=
  (matchingShares shares pfx).filterMap fun sh =>
    match shareSweepAction cutoff sh with
    | .attemptDelete oid => some oid
    | _ => none

/-- cleanup_old_smb_shares: number of shares whose delete request succeeded;
delOk is the oracle for delete_smb_share results. -/
def cleanup_old_smb_shares (delOk : String → Bool) (shares : List SmbShare)
    (pfx : String) (cutoff : PyDateTime) : Nat :=
  if (matchingShares shares pfx).isEmpty then 0
  else ((shareDeleteAttempts shares pfx cutoff).filter delOk).length

/-! ## Environment and backup-result validation -/

def Env := String → Option String

/-- os.environ.get with a default. -/
def envGet (env : Env) (k dflt : String) : String := (env k).getD dflt

/-- Boolean environment flags: value.lower() compared to the string true. -/
def envFlag (env : Env) (k dflt : String) : Bool :=
  pyLower (envGet env k dflt) == "true"

/-- validate_backup_result, lines 314-324 of fixed_hnas_post_backup.py: the
session-result variable is read into a local that is never used; the job
result counts as success exactly for the values Success and Warning. -/
def validate_backup_result (env : Env) : Bool × String :=
  let job_result := envGet env "VEEAM_JOB_RESULT" "Unknown"
  let _session_result := envGet env "VEEAM_SESSION_RESULT" "Unknown"
  if job_result = "Success" ∨ job_result = "Warning" then (true, job_result)
  else (false, job_result)

/-- should_cleanup, lines 380-383 of fixed_hnas_post_backup.py. -/
def should_cleanup (backup_success cleanup_on_success cleanup_on_failure : Bool) : Bool :=
  (backup_success && cleanup_on_success) || (!backup_success && cleanup_on_failure)

/-! ## The HNAS world: oracles for the REST endpoints -/

/-- One element of the filesystems listing, as read by
get_filesystem_by_name (flat fields). -/
structure FSEntry where
  filesystemId : Option String
  label : Option String
  virtualServerId : Option String
deriving DecidableEq, Repr

/-- The inner filesystem object of a get_filesystem_info response; callers
read its label and virtualServerId fields. -/
structure FSDetail where
  label : Option String
  virtualServerId : Option String
deriving DecidableEq, Repr

/-- The snapshot descriptor a successful create_snapshot returns. -/
structure SnapDescriptor where
  objectId : Option String
  creationTime : Option String
deriving DecidableEq, Repr

/-- The share descriptor a successful create_smb_share returns. -/
structure ShareObj where
  name : Option String
  objectId : Option String
  path : Option String
deriving DecidableEq, Repr

/-- Remote state and behavior of the HNAS REST API, one oracle per
endpoint used by the scripts.  none and the empty list model the paths
where a wrapper method catches an error and returns its sentinel. -/
structure HNASWorld where
  connectOk : Bool
  filesystems : List FSEntry
  fsDetail : String → Option FSDetail
  snapshotsOf : String → String → List Snapshot
  sharesOf : String → List SmbShare
  snapshotDeleteResp : String → HttpResult
  shareDeleteResp : String → HttpResult
  createSnapshotResp : String → String → Option SnapDescriptor
  createShareResp : String → String → Option ShareObj

/-- get_filesystem_by_name: linear scan of the filesystems listing, first
entry whose label equals the requested name. -/
def get_filesystem_by_name : List FSEntry → String → Option FSEntry
  | [], _ => none
  | fs :: rest, nm =>
      if fs.label == some nm then some fs else get_filesystem_by_name rest nm

/-- get_filesystem_info by id, with the filesystem-object projection the
callers apply folded in. -/
def get_filesystem_info (w : HNASWorld) (fsId : String) : Option FSDetail :=
  w.fsDetail fsId

/-! ## Pre-phase orchestration (fixed_hnas_pre_backup.py main) -/

/-- The 32-hexadecimal-character test of fixed_hnas_pre_backup.py line 293,
written with the same character-membership test as the source. -/
def looksLikeFilesystemId_previous (s : String) : Bool :=
  s.length == 32 && s.toList.all fun c => "0123456789ABCDEFabcdef".toList.contains c

/-- The 32-hexadecimal-character test of fixed_hnas_post_backup.py line 429,
textually duplicated from the pre-backup script. -/
def looksLikeFilesystemId_post (s : String) : Bool :=
  s.length == 32 && s.toList.all fun c => "0123456789ABCDEFabcdef".toList.contains c

structure PreConfig where
  hnas_host : String
  username : String
  password : String
  filesystems : List String
  app_search_id : String
  retention_interval : Int
  verify_ssl : Bool
  create_smb_share : Bool
  smb_share_name : String
deriving DecidableEq, Repr

/-- Share fields added to a manifest entry when share creation succeeded. -/
structure PreShareFields where
  smb_share_name : String
  smb_share_object_id : String
  smb_share_path : String
deriving DecidableEq, Repr

/-- One manifest entry written by the pre-backup script. -/
structure PreEntry where
  filesystem_id : String
  filesystem_name : String
  snapshot_name : String
  snapshot_object_id : String
  creation_time : String
  app_search_id : String
  share : Option PreShareFields
deriving DecidableEq, Repr

/-- Lines 292-312 of fixed_hnas_pre_backup.py: resolve one stripped
filesystem reference to an id and a display label, or skip it.  An
identifier-shaped reference is kept as the id and its label fetched by
direct lookup; any other reference is resolved by the label scan, and is
skipped when the entry carries no truthy filesystemId. -/
def preResolveRef (w : HNASWorld) (ref : String) : Option (String × String) :=
  if looksLikeFilesystemId_previous ref then
    match get_filesystem_info w ref with
    | none => none
    | some d => some (ref, d.label.getD ref)
  else
    match get_filesystem_by_name w.filesystems ref with
    | none => none
    | some fs =>
        let fsName := fs.label.getD ref
        match fs.filesystemId with
        | some i => if i ≠ "" then some (i, fsName) else none
        | none => none

/-- Lines 315-318: snapshot display name, with the veeam fallback when the
configured tag is empty (falsy). -/
def snapshotNameFor (app fsName ts : String) : String :=
  if app ≠ "" then app ++ "_" ++ fsName ++ "_" ++ ts
  else "veeam" ++ "_" ++ fsName ++ "_" ++ ts

/-- create_smb_share, lines 157-224: requires the filesystem detail lookup
to succeed and the owning virtual server id to be truthy, then defers to
the share-creation oracle. -/
def create_smb_share (w : HNASWorld) (fsId snapName : String) : Option ShareObj :=
  match get_filesystem_info w fsId with
  | none => none
  | some d =>
      match d.virtualServerId with
      | some v => if v ≠ "" then w.createShareResp fsId snapName else none
      | none => none

/-- Lines 340-353: when share creation is enabled and succeeds, the share
fields are added to the entry; a share failure leaves the snapshot entry
unchanged. -/
def attachShare (w : HNASWorld) (cfg : PreConfig) (fsId snapName : String)
    (base : PreEntry) : PreEntry :=
  if cfg.create_smb_share then
    match create_smb_share w fsId snapName with
    | some sho =>
        { base with
          share := some ⟨sho.name.getD "", sho.objectId.getD "", sho.path.getD ""⟩ }
    | none => base
  else base

/-- One iteration of the pre-backup main loop, lines 285-357: strip the
reference, skip it when empty, resolve it, create the snapshot (skipping
the filesystem on failure), then optionally attach share fields. -/
def preProcessRef (w : HNASWorld) (cfg : PreConfig) (ts raw : String) : Option PreEntry :=
  let ref := pyTrim raw
  if ref = "" then none
  else
    match preResolveRef w ref with
    | none => none
    | some (fsId, fsName) =>
        let snapName := snapshotNameFor cfg.app_search_id fsName ts
        match w.createSnapshotResp fsId snapName with
        | none => none
        | some snap =>
            some (attachShare w cfg fsId snapName
              { filesystem_id := fsId
                filesystem_name := fsName
                snapshot_name := snapName
                snapshot_object_id := snap.objectId.getD ""
                creation_time := snap.creationTime.getD ""
                app_search_id := cfg.app_search_id
                share := none })

/-- The created-snapshots list accumulated by the pre-backup main loop; the
run timestamp ts is computed once before the loop and shared by every
iteration. -/
def preEntries (w : HNASWorld) (cfg : PreConfig) (ts : String) : List PreEntry :=
  cfg.filesystems.filterMap (preProcessRef w cfg ts)

/-- The manifest object written by the pre-backup script. -/
structure Manifest where
  timestamp : String
  snapshots : List PreEntry
  host : String
  app_search_id : String
deriving DecidableEq, Repr

/-- Externally visible steps of the tail of the pre-backup main function. -/
inductive PreEffect where
  | makedirsManifestDir
  | writeManifest (m : Manifest)
  | exitFailure
  | printSuccess (n : Nat)
deriving DecidableEq, Repr

/-- Lines 359-379 of fixed_hnas_pre_backup.py: unconditionally ensure the
manifest directory exists and write the manifest; then exit with failure
exactly when zero snapshots were created, and report success otherwise. -/
def preMainTail (w : HNASWorld) (cfg : PreConfig) (ts : String) : List PreEffect :=
  let entries := preEntries w cfg ts
  [PreEffect.makedirsManifestDir,
   PreEffect.writeManifest ⟨ts, entries, cfg.hnas_host, cfg.app_search_id⟩] ++
  (if entries.length = 0 then [PreEffect.exitFailure]
   else [PreEffect.printSuccess entries.length])

/-! ## Post-phase orchestration (fixed_hnas_post_backup.py main) -/

/-- One entry of the loaded manifest as the post-backup script reads it:
every field is fetched with dict.get and may be absent. -/
structure ManifestEntry where
  filesystem_id : Option String
  snapshot_object_id : Option String
  smb_share_object_id : Option String
  smb_share_name : Option String
deriving DecidableEq, Repr

/-- State of the manifest file at the configured path when the post-backup
script starts: absent, present but failing to load, or loaded with its
snapshots list. -/
inductive ManifestState where
  | absent
  | unreadable
  | present (entries : List ManifestEntry)
deriving DecidableEq, Repr

/-- The created_snapshots list after the loading block, lines 367-377: the
empty list unless the file existed and loaded. -/
def manifestEntries : ManifestState → List ManifestEntry
  | .present es => es
  | _ => []

/-- os.path.exists on the manifest path. -/
def manifestFileExists : ManifestState → Bool
  | .absent => false
  | _ => true

structure PostConfig where
  hnas_host : String
  username : String
  password : String
  verify_ssl : Bool
  cleanup_on_success : Bool
  cleanup_on_failure : Bool
  retention_days : Int
  app_search_id : String
  smb_share_name : String
deriving DecidableEq, Repr

/-- Lines 332-342 of fixed_hnas_post_backup.py: the config dictionary read
from the environment; int() on the retention-days value raises out of main
when it does not parse, modeled as none. -/
def readPostConfig (env : Env) : Option PostConfig :=
  match pyInt (envGet env "HNAS_RETENTION_DAYS" "7") with
  | none => none
  | some rd =>
      some { hnas_host := envGet env "HNAS_HOST" ""
             username := envGet env "HNAS_USERNAME" ""
             password := envGet env "HNAS_PASSWORD" ""
             verify_ssl := envFlag env "HNAS_VERIFY_SSL" "false"
             cleanup_on_success := envFlag env "HNAS_CLEANUP_ON_SUCCESS" "false"
             cleanup_on_failure := envFlag env "HNAS_CLEANUP_ON_FAILURE" "true"
             retention_days := rd
             app_search_id := envGet env "HNAS_APP_SEARCH_ID" "veeam"
             smb_share_name := envGet env "HNAS_SMB_SHARE_NAME" "VeeamNASBackup" }

/-- Manifest-driven cleanup, lines 390-401: per entry, issue a share delete
when the share object id is truthy (result ignored), then a snapshot delete
when the snapshot object id is truthy, counting successful snapshot
deletions.  Returns the count, the snapshot delete requests and the share
delete requests, in order. -/
def sessionCleanup (w : HNASWorld) (entries : List ManifestEntry) :
    Nat × List String × List String :=
  entries.foldl
    (fun acc e =>
      let shareDels :=
        match e.smb_share_object_id with
        | some oid => if oid ≠ "" then acc.2.2 ++ [oid] else acc.2.2
        | none => acc.2.2
      match e.snapshot_object_id with
      | some oid =>
          if oid ≠ "" then
            if delete_snapshot (w.snapshotDeleteResp oid) then
              (acc.1 + 1, acc.2.1 ++ [oid], shareDels)
            else (acc.1, acc.2.1 ++ [oid], shareDels)
          else (acc.1, acc.2.1, shareDels)
      | none => (acc.1, acc.2.1, shareDels))
    (0, [], [])

/-- Python set.add modeled on lists: membership-preserving insertion. -/
def setAdd (l : List String) (x : String) : List String :=
  if l.contains x then l else l ++ [x]

/-- Add an optional value to the set when it is truthy. -/
def addTruthy (acc : List String) : Option String → List String
  | some v => if v ≠ "" then setAdd acc v else acc
  | none => acc

/-- Line 412: the set of truthy filesystem_id fields of the manifest
entries. -/
def manifestFilesystems (entries : List ManifestEntry) : List String :=
  entries.foldl (fun acc e => addTruthy acc e.filesystem_id) []

/-- Lines 414-419: virtual servers of the manifest-derived filesystems,
resolved through get_filesystem_info. -/
def lookupVirtualServers (w : HNASWorld) (fss : List String) : List String :=
  fss.foldl
    (fun acc fsId =>
      match get_filesystem_info w fsId with
      | some d => addTruthy acc d.virtualServerId
      | none => acc)
    []

/-- Lines 421-447: the sweep-only fallback.  The raw HNAS_FILESYSTEMS value
is split on commas; each stripped nonempty item is classified by the
32-hexadecimal heuristic: identifier-shaped items join the filesystem set
directly and their virtual server comes from the detail lookup; other items
go through the label scan, contributing their truthy filesystemId and
virtualServerId fields. -/
def postFallbackStep (w : HNASWorld) (acc : List String × List String)
    (item : String) : List String × List String :=
  let it := pyTrim item
  if it = "" then acc
  else if looksLikeFilesystemId_post it then
    (setAdd acc.1 it,
     match get_filesystem_info w it with
     | some d => addTruthy acc.2 d.virtualServerId
     | none => acc.2)
  else
    match get_filesystem_by_name w.filesystems it with
    | some fs => (addTruthy acc.1 fs.filesystemId, addTruthy acc.2 fs.virtualServerId)
    | none => acc

def postFallbackTargets (w : HNASWorld) (raw : String) : List String × List String :=
  (pySplit ',' raw).foldl (postFallbackStep w) ([], [])

/-- Lines 450-457: snapshot delete requests issued by the retention sweep
across the filesystem set. -/
def sweepSnapshotDeletes (w : HNASWorld) (fss : List String) (app : String)
    (cutoff : Int) : List String :=
  fss.foldl (fun acc fsId => acc ++ snapshotDeleteAttempts (w.snapshotsOf fsId app) cutoff) []

/-- Lines 460-467: share delete requests issued by the retention sweep
across the virtual-server set. -/
def sweepShareDeletes (w : HNASWorld) (vss : List String) (pfx : String)
    (cutoff : PyDateTime) : List String :=
  vss.foldl (fun acc vsId => acc ++ shareDeleteAttempts (w.sharesOf vsId) pfx cutoff) []

/-- Observable outcome of one post-backup run past the connectivity
probe. -/
structure PostRunResult where
  backupSuccess : Bool
  jobResult : String
  shouldCleanup : Bool
  deletedCount : Nat
  sessionSnapshotDeletes : List String
  sessionShareDeletes : List String
  sweepRan : Bool
  sweptFilesystems : List String
  sweptVirtualServers : List String
  retentionSnapshotDeletes : List String
  retentionShareDeletes : List String
  manifestRemoved : Bool
deriving DecidableEq, Repr

/-- Lines 379-482 of fixed_hnas_post_backup.py: the body of main after the
connectivity probe.  now is the wall clock in epoch seconds used for the
snapshot cutoff; shareCutoff is the datetime value now minus
retention_days days used by the share sweep. -/
def postRun (w : HNASWorld) (cfg : PostConfig) (bs : Bool) (jr : String)
    (ms : ManifestState) (envFS : String) (now : Int) (shareCutoff : PyDateTime) :
    PostRunResult :=
  let created := manifestEntries ms
  let sc := should_cleanup bs cfg.cleanup_on_success cfg.cleanup_on_failure
  let session :=
    if sc && !created.isEmpty then sessionCleanup w created else (0, [], [])
  let targets : List String × List String :=
    if 0 < cfg.retention_days then
      if created.isEmpty then postFallbackTargets w envFS
      else (manifestFilesystems created, lookupVirtualServers w (manifestFilesystems created))
    else ([], [])
  { backupSuccess := bs
    jobResult := jr
    shouldCleanup := sc
    deletedCount := session.1
    sessionSnapshotDeletes := session.2.1
    sessionShareDeletes := session.2.2
    sweepRan := decide (0 < cfg.retention_days)
    sweptFilesystems := targets.1
    sweptVirtualServers := targets.2
    retentionSnapshotDeletes :=
      if 0 < cfg.retention_days then
        sweepSnapshotDeletes w targets.1 cfg.app_search_id (cutoffTime now cfg.retention_days)
      else []
    retentionShareDeletes :=
      if 0 < cfg.retention_days then
        sweepShareDeletes w targets.2 cfg.smb_share_name shareCutoff
      else []
    manifestRemoved := sc && manifestFileExists ms }

/-- Outcome of a whole post-backup invocation. -/
inductive PostOutcome where
  | configCrash
  | configError
  | connectError
  | completed (r : PostRunResult)
deriving DecidableEq, Repr

/-- main of fixed_hnas_post_backup.py: validate the backup result, build
the config (crashing when the retention-days value does not parse), exit
on missing required settings, exit on probe failure, then run the body. -/
def postMain (env : Env) (w : HNASWorld) (ms : ManifestState) (now : Int)
    (shareCutoff : PyDateTime) : PostOutcome :=
  let bs := (validate_backup_result env).1
  let jr := (validate_backup_result env).2
  match readPostConfig env with
  | none => .configCrash
  | some cfg =>
      if cfg.hnas_host ≠ "" ∧ cfg.username ≠ "" ∧ cfg.password ≠ "" then
        if w.connectOk then
          .completed (postRun w cfg bs jr ms (envGet env "HNAS_FILESYSTEMS" "") now shareCutoff)
        else .connectError
      else .configError

/-! ## Concrete instances used by witnesses -/

/-- A quiet world: connection succeeds, every listing is empty, every
lookup misses, every delete returns 200, every create fails. -/
def w0 : HNASWorld :=
  { connectOk := true
    filesystems := []
    fsDetail := fun _ => none
    snapshotsOf := fun _ _ => []
    sharesOf := fun _ => []
    snapshotDeleteResp := fun _ => .status 200
    shareDeleteResp := fun _ => .status 200
    createSnapshotResp := fun _ _ => none
    createShareResp := fun _ _ => none }

/-- World holding the two example filesystems fs-alpha and fs-beta, with
snapshot creation succeeding. -/
def wAB : HNASWorld :=
  { w0 with
    filesystems :=
      [{ filesystemId := some "fsid-a", label := some "fs-alpha", virtualServerId := some "vs1" },
       { filesystemId := some "fsid-b", label := some "fs-beta", virtualServerId := some "vs1" }]
    createSnapshotResp := fun _ _ => some { objectId := some "snapobj", creationTime := some "100" } }

/-- Pre-phase configuration of the end-to-end example: filesystems
fs-alpha and fs-beta, tag veeam, share creation disabled. -/
def cfgAB : PreConfig :=
  { hnas_host := "h", username := "u", password := "p"
    filesystems := ["fs-alpha", "fs-beta"]
    app_search_id := "veeam", retention_interval := 0, verify_ssl := false
    create_smb_share := false, smb_share_name := "VeeamNASBackup" }

/-- cfgAB with a leading unresolvable reference. -/
def cfgSkip : PreConfig := { cfgAB with filesystems := ["nope", "fs-alpha"] }

/-- cfgAB with only an unresolvable reference. -/
def cfgAllFail : PreConfig := { cfgAB with filesystems := ["nope"] }

/-- The manifest entry the example produces for fs-alpha. -/
def entryAlpha : PreEntry :=
  { filesystem_id := "fsid-a", filesystem_name := "fs-alpha"
    snapshot_name := "veeam_fs-alpha_20240115_030000"
    snapshot_object_id := "snapobj", creation_time := "100"
    app_search_id := "veeam", share := none }

/-- Post-phase configuration with a seven-day window and both cleanup
flags disabled. -/
def cfgPost : PostConfig :=
  { hnas_host := "h", username := "u", password := "p", verify_ssl := false
    cleanup_on_success := false, cleanup_on_failure := false
    retention_days := 7, app_search_id := "veeam", smb_share_name := "VeeamNASBackup" }

/-- A loaded manifest with one entry pointing at filesystem FSID1. -/
def msOne : ManifestState :=
  .present [{ filesystem_id := some "FSID1", snapshot_object_id := some "SNAP1"
              smb_share_object_id := none, smb_share_name := none }]

/-- Cutoff datetime used in share-sweep examples. -/
def cutJan20 : PyDateTime := ⟨2024, 1, 20, 0, 0, 0⟩

/-- A share with a well-formed timestamp suffix older than cutJan20. -/
def shOld : SmbShare := { name := some "VeeamNASBackup_20240115_030000", objectId := some "SHOID" }

/-- A share whose name has only two underscore-separated parts. -/
def shBad : SmbShare := { name := some "VeeamNASBackup_bad", objectId := some "SHOID2" }

/-- An old parseable share without an object id. -/
def shNoOid : SmbShare := { name := some "VeeamNASBackup_20200101_000000", objectId := none }

/-- A share with three underscore-separated parts and an unparsable
timestamp. -/
def shBadTime : SmbShare :=
  { name := some "VeeamNASBackup_20240115_0a0000", objectId := some "SHOID3" }

/-- A 32-character hexadecimal reference. -/
def hexRef : String := "0123456789abcdef0123456789ABCDEF"

/-- Environment shared by the session-result independence example. -/
def envBase : Env := fun k =>
  if k = "VEEAM_JOB_RESULT" then some "Failed"
  else if k = "HNAS_HOST" then some "h"
  else if k = "HNAS_USERNAME" then some "u"
  else if k = "HNAS_PASSWORD" then some "p"
  else none

/-- envBase with the session result Success. -/
def envA : Env := fun k =>
  if k = "VEEAM_SESSION_RESULT" then some "Success" else envBase k

/-- envBase with the session result Failed. -/
def envB : Env := fun k =>
  if k = "VEEAM_SESSION_RESULT" then some "Failed" else envBase k

/-- Environment with a successful job result. -/
def envSuccess : Env := fun k =>
  if k = "VEEAM_JOB_RESULT" then some "Success"
  else if k = "HNAS_HOST" then some "h"
  else if k = "HNAS_USERNAME" then some "u"
  else if k = "HNAS_PASSWORD" then some "p"
  else none

/-- The configuration envSuccess produces: every optional setting at its
default. -/
def cfgEnvS : PostConfig :=
  { hnas_host := "h", username := "u", password := "p", verify_ssl := false
    cleanup_on_success := false, cleanup_on_failure := true
    retention_days := 7, app_search_id := "veeam", smb_share_name := "VeeamNASBackup" }

/-! ## Helper lemmas -/

/-- The label scan is List.find? on label equality. -/
theorem get_filesystem_by_name_eq_find (fss : List FSEntry) (nm : String) :
    get_filesystem_by_name fss nm = fss.find? (fun fs => fs.label == some nm) := by
  induction fss with
  | nil => rfl
  | cons fs rest ih =>
      rw [get_filesystem_by_name, List.find?_cons]
      by_cases h : fs.label == some nm
      · simp [h]
      · simp [h, ih]

/-- Attaching share fields never changes the snapshot fields of an entry. -/
theorem attachShare_preserves (w : HNASWorld) (cfg : PreConfig) (fsId snapName : String)
    (base : PreEntry) :
    (attachShare w cfg fsId snapName base).snapshot_name = base.snapshot_name ∧
    (attachShare w cfg fsId snapName base).filesystem_name = base.filesystem_name := by
  unfold attachShare
  split
  · cases create_smb_share w cfg.hnas_host snapName <;>
      cases h : create_smb_share w fsId snapName <;> simp [h]
  · exact ⟨rfl, rfl⟩

/-- A successfully processed reference yields an entry whose snapshot name
is derived from its own filesystem name and the shared run timestamp. -/
theorem preProcessRef_snapshot_name (w : HNASWorld) (cfg : PreConfig) (ts raw : String)
    (e : PreEntry) (h : preProcessRef w cfg ts raw = some e) :
    e.snapshot_name = snapshotNameFor cfg.app_search_id e.filesystem_name ts := by
  simp only [preProcessRef] at h
  split at h
  · exact absurd h (by simp)
  · cases hres : preResolveRef w (pyTrim raw) with
    | none => rw [hres] at h; exact absurd h (by simp)
    | some p =>
        obtain ⟨fsId, fsName⟩ := p
        rw [hres] at h
        simp only [] at h
        cases hcs : w.createSnapshotResp fsId (snapshotNameFor cfg.app_search_id fsName ts) with
        | none => rw [hcs] at h; exact absurd h (by simp)
        | some snap =>
            rw [hcs] at h
            simp only [] at h
            have he := (Option.some_inj.mp h).symm
            subst he
            obtain ⟨h1, h2⟩ := attachShare_preserves w cfg fsId
              (snapshotNameFor cfg.app_search_id fsName ts)
              { filesystem_id := fsId, filesystem_name := fsName
                snapshot_name := snapshotNameFor cfg.app_search_id fsName ts
                snapshot_object_id := snap.objectId.getD ""
                creation_time := snap.creationTime.getD ""
                app_search_id := cfg.app_search_id, share := none }
            rw [h1, h2]

/-- preProcessRef does not depend on the filesystems field of the
configuration. -/
theorem preProcessRef_filesystems_irrel (w : HNASWorld) (cfg : PreConfig)
    (ts : String) (l : List String) :
    preProcessRef w { cfg with filesystems := l } ts = preProcessRef w cfg ts := by
  cases cfg; rfl

/-! ## Claim theorems -/

/-- Claim C2 counterexample: a listed snapshot whose normalized creation
time (epoch 0) is strictly before the cutoff (100) but which carries no
objectId field is not deleted by the sweep, contrary to the claim that
every strictly-older listed snapshot is deleted. -/
theorem C2_counterexample :
    normCreationTime (JsonTime.int 0) = some 0 ∧ (0 : Int) < 100 ∧
    snapAction 100 { creationTime := JsonTime.int 0, objectId := none } =
      SnapAction.missingObjectId ∧
    snapshotDeleteAttempts [{ creationTime := JsonTime.int 0, objectId := none }] 100 = [] := by
  refine ⟨rfl, by decide, rfl, rfl⟩

/-- Claim C2 (amended): in the snapshot retention sweep, a snapshot whose
normalized creation time is strictly before the cutoff is deleted provided
it carries a non-empty objectId; a snapshot whose creation time equals the
cutoff is retained; a numeric creation-time string is converted to an
integer before comparison; and a snapshot whose creation-time string fails
to parse is skipped and never deleted. -/
theorem C2_snapshot_retention :
    (∀ (cutoff t : Int) (sn : Snapshot) (oid : String),
        normCreationTime sn.creationTime = some t → t < cutoff →
        sn.objectId = some oid → oid ≠ "" →
        snapAction cutoff sn = SnapAction.attemptDelete oid)
    ∧ (∀ (cutoff : Int) (sn : Snapshot),
        normCreationTime sn.creationTime = some cutoff →
        snapAction cutoff sn = SnapAction.retained)
    ∧ (∀ (cutoff n : Int) (s : String) (oid : Option String),
        pyInt s = some n →
        snapAction cutoff { creationTime := JsonTime.str s, objectId := oid } =
          snapAction cutoff { creationTime := JsonTime.int n, objectId := oid })
    ∧ (∀ (cutoff : Int) (s : String) (oid : Option String),
        pyInt s = none →
        snapAction cutoff { creationTime := JsonTime.str s, objectId := oid } =
          SnapAction.unparsableSkipped)
    ∧ (∀ (cutoff : Int) (sn : Snapshot) (snaps : List Snapshot) (oid : String),
        sn ∈ snaps → snapAction cutoff sn = SnapAction.attemptDelete oid →
        oid ∈ snapshotDeleteAttempts snaps cutoff)
    ∧ (∀ (cutoff : Int) (s : String) (oid : Option String) (o2 : String),
        pyInt s = none →
        snapAction cutoff { creationTime := JsonTime.str s, objectId := oid } ≠
          SnapAction.attemptDelete o2) := by
  refine ⟨?_, ?_, ?_, ?_, ?_, ?_⟩
  · intro cutoff t sn oid h1 h2 h3 h4
    simp [snapAction, h1, h2, h3, h4]
  · intro cutoff sn h
    simp [snapAction, h]
  · intro cutoff n s oid h
    unfold snapAction
    simp [normCreationTime, h]
  · intro cutoff s oid h
    unfold snapAction
    simp [normCreationTime, h]
  · intro cutoff sn snaps oid hmem hact
    unfold snapshotDeleteAttempts
    rw [List.mem_filterMap]
    exact ⟨sn, hmem, by rw [hact]⟩
  · intro cutoff s oid o2 h
    unfold snapAction
    simp [normCreationTime, h]

/-- Claim C2 witness instances. -/
theorem C2_witness :
    snapAction 100 { creationTime := JsonTime.int 50, objectId := some "OID" } =
      SnapAction.attemptDelete "OID"
    ∧ snapAction 100 { creationTime := JsonTime.int 100, objectId := some "OID" } =
      SnapAction.retained
    ∧ snapAction 100 { creationTime := JsonTime.str "50", objectId := some "OID" } =
      snapAction 100 { creationTime := JsonTime.int 50, objectId := some "OID" }
    ∧ snapAction 100 { creationTime := JsonTime.str "oops", objectId := some "OID" } =
      SnapAction.unparsableSkipped
    ∧ "OID" ∈ snapshotDeleteAttempts
        [{ creationTime := JsonTime.int 50, objectId := some "OID" }] 100 :=
  ⟨C2_snapshot_retention.1 100 50
     { creationTime := JsonTime.int 50, objectId := some "OID" } "OID"
     rfl (by decide) rfl (by decide),
   C2_snapshot_retention.2.1 100
     { creationTime := JsonTime.int 100, objectId := some "OID" } rfl,
   C2_snapshot_retention.2.2.1 100 50 "50" (some "OID") (by decide),
   C2_snapshot_retention.2.2.2.1 100 "oops" (some "OID") (by decide),
   C2_snapshot_retention.2.2.2.2.1 100
     { creationTime := JsonTime.int 50, objectId := some "OID" }
     [{ creationTime := JsonTime.int 50, objectId := some "OID" }] "OID"
     (by decide)
     (C2_snapshot_retention.1 100 50
       { creationTime := JsonTime.int 50, objectId := some "OID" } "OID"
       rfl (by decide) rfl (by decide))⟩

/-- Claim C4: a delete that comes back 404 is a success result; any other
HTTP error status (the 400..599 range raised by raise_for_status) is a
failure result; a transport-level failure is a failure result rather than
a propagated exception.  This holds for snapshot and share deletion
alike. -/
theorem C4_idempotent_delete :
    (delete_snapshot (HttpResult.status 404) = true ∧
     delete_smb_share (HttpResult.status 404) = true)
    ∧ (∀ code : Nat, 400 ≤ code → code < 600 → code ≠ 404 →
        delete_snapshot (HttpResult.status code) = false ∧
        delete_smb_share (HttpResult.status code) = false)
    ∧ (delete_snapshot HttpResult.transportFailure = false ∧
       delete_smb_share HttpResult.transportFailure = false) := by
  refine ⟨by decide, ?_, by decide⟩
  intro code h1 h2 h3
  constructor
  · simp only [delete_snapshot]
    rw [if_pos ⟨h1, h2⟩, if_neg h3]
  · simp only [delete_smb_share]
    rw [if_pos ⟨h1, h2⟩, if_neg h3]

/-- Claim C4 witness: status 500 on both delete operations. -/
theorem C4_witness :
    delete_snapshot (HttpResult.status 500) = false ∧
    delete_smb_share (HttpResult.status 500) = false :=
  C4_idempotent_delete.2.1 500 (by decide) (by decide) (by decide)

/-- Claim C10: a listed snapshot with no creationTime field at all gets the
default 0, which is strictly below any positive cutoff, so it is deleted
whenever the retention window is positive (hence the cutoff now minus the
window is positive for any realistic clock) and the snapshot has a truthy
object identifier; absence is not routed through the unparsable-value skip
path. -/
theorem C10_missing_creation_time :
    (normCreationTime JsonTime.missing = some 0)
    ∧ (normCreationTime JsonTime.missing ≠ none)
    ∧ (∀ (cutoff : Int) (oid : String), 0 < cutoff → oid ≠ "" →
        snapAction cutoff { creationTime := JsonTime.missing, objectId := some oid } =
          SnapAction.attemptDelete oid)
    ∧ (∀ (now rd : Int) (snaps : List Snapshot) (sn : Snapshot) (oid : String),
        0 < rd → 0 < cutoffTime now rd →
        sn ∈ snaps → sn.creationTime = JsonTime.missing → sn.objectId = some oid →
        oid ≠ "" → oid ∈ snapshotDeleteAttempts snaps (cutoffTime now rd)) := by
  refine ⟨rfl, by simp [normCreationTime], ?_, ?_⟩
  · intro cutoff oid h1 h2
    simp [snapAction, normCreationTime, h1, h2]
  · intro now rd snaps sn oid hrd hcut hmem hct hoid hne
    unfold snapshotDeleteAttempts
    rw [List.mem_filterMap]
    refine ⟨sn, hmem, ?_⟩
    simp [snapAction, normCreationTime, hct, hoid, hcut, hne]

/-- Claim C10 witness: retention 7 days, clock at epoch 700000, an
old-style snapshot lacking creationTime is swept. -/
theorem C10_witness :
    (0 : Int) < 7 ∧ (0 : Int) < cutoffTime 700000 7 ∧
    "OLD" ∈ snapshotDeleteAttempts
      [{ creationTime := JsonTime.missing, objectId := some "OLD" }] (cutoffTime 700000 7) :=
  ⟨by decide, by decide,
   C10_missing_creation_time.2.2.2 700000 7
     [{ creationTime := JsonTime.missing, objectId := some "OLD" }]
     { creationTime := JsonTime.missing, objectId := some "OLD" } "OLD"
     (by decide) (by decide) (by decide) rfl rfl (by decide)⟩

/-- Claim C1: the post phase computes should_cleanup exactly as
(succeeded AND cleanup_on_success) OR (NOT succeeded AND
cleanup_on_failure), where succeeded holds exactly when the job-result
indicator is Success or Warning, with the four-row truth table. -/
theorem C1_should_cleanup_formula :
    (∀ env : Env, (validate_backup_result env).1 = true ↔
      (envGet env "VEEAM_JOB_RESULT" "Unknown" = "Success" ∨
       envGet env "VEEAM_JOB_RESULT" "Unknown" = "Warning"))
    ∧ (∀ (w : HNASWorld) (cfg : PostConfig) (bs : Bool) (jr : String)
        (ms : ManifestState) (envFS : String) (now : Int) (scut : PyDateTime),
        (postRun w cfg bs jr ms envFS now scut).shouldCleanup =
          ((bs && cfg.cleanup_on_success) || (!bs && cfg.cleanup_on_failure)))
    ∧ (∀ (env : Env) (w : HNASWorld) (ms : ManifestState) (now : Int)
        (scut : PyDateTime) (cfg : PostConfig) (r : PostRunResult),
        readPostConfig env = some cfg →
        postMain env w ms now scut = PostOutcome.completed r →
        r.shouldCleanup = should_cleanup (validate_backup_result env).1
          cfg.cleanup_on_success cfg.cleanup_on_failure)
    ∧ (∀ f, should_cleanup true true f = true)
    ∧ (∀ f, should_cleanup true false f = false)
    ∧ (∀ s, should_cleanup false s true = true)
    ∧ (∀ s, should_cleanup false s false = false) := by
  refine ⟨?_, ?_, ?_, by decide, by decide, by decide, by decide⟩
  · intro env
    simp only [validate_backup_result]
    by_cases h : envGet env "VEEAM_JOB_RESULT" "Unknown" = "Success" ∨
        envGet env "VEEAM_JOB_RESULT" "Unknown" = "Warning"
    · rw [if_pos h]; simpa using h
    · rw [if_neg h]; simpa using h
  · intro w cfg bs jr ms envFS now scut
    simp [postRun, should_cleanup]
  · intro env w ms now scut cfg r hcfg hrun
    simp only [postMain, hcfg] at hrun
    split at hrun
    · split at hrun
      · injection hrun with he
        subst he
        simp [postRun]
      · exact PostOutcome.noConfusion hrun
    · exact PostOutcome.noConfusion hrun

/-- Claim C1 witness: a Success environment with default policies. -/
theorem C1_witness :
    (validate_backup_result envSuccess).1 = true
    ∧ (postRun w0 cfgEnvS true "Success" ManifestState.absent "" 700000 cutJan20).shouldCleanup =
      should_cleanup (validate_backup_result envSuccess).1
        cfgEnvS.cleanup_on_success cfgEnvS.cleanup_on_failure :=
  ⟨(C1_should_cleanup_formula.1 envSuccess).mpr (Or.inl rfl),
   C1_should_cleanup_formula.2.2.1 envSuccess w0 ManifestState.absent 700000 cutJan20
     cfgEnvS (postRun w0 cfgEnvS true "Success" ManifestState.absent "" 700000 cutJan20)
     (by decide) (by decide)⟩

/-- Claim C9: two post-phase runs whose environments agree everywhere
except on VEEAM_SESSION_RESULT produce identical outcomes: the variable is
read into an unused local, so only VEEAM_JOB_RESULT decides the succeeded
classification and everything downstream. -/
theorem C9_session_result_independent :
    ∀ (env₁ env₂ : Env) (w : HNASWorld) (ms : ManifestState) (now : Int)
      (scut : PyDateTime),
      (∀ k, k ≠ "VEEAM_SESSION_RESULT" → env₁ k = env₂ k) →
      postMain env₁ w ms now scut = postMain env₂ w ms now scut := by
  intro env₁ env₂ w ms now scut h
  have hJ := h "VEEAM_JOB_RESULT" (by decide)
  have hH := h "HNAS_HOST" (by decide)
  have hU := h "HNAS_USERNAME" (by decide)
  have hP := h "HNAS_PASSWORD" (by decide)
  have hV := h "HNAS_VERIFY_SSL" (by decide)
  have hCS := h "HNAS_CLEANUP_ON_SUCCESS" (by decide)
  have hCF := h "HNAS_CLEANUP_ON_FAILURE" (by decide)
  have hRD := h "HNAS_RETENTION_DAYS" (by decide)
  have hAS := h "HNAS_APP_SEARCH_ID" (by decide)
  have hSN := h "HNAS_SMB_SHARE_NAME" (by decide)
  have hFS := h "HNAS_FILESYSTEMS" (by decide)
  have h1 : validate_backup_result env₁ = validate_backup_result env₂ := by
    simp [validate_backup_result, envGet, hJ]
  have h2 : readPostConfig env₁ = readPostConfig env₂ := by
    simp [readPostConfig, envGet, envFlag, hH, hU, hP, hV, hCS, hCF, hRD, hAS, hSN]
  have h3 : envGet env₁ "HNAS_FILESYSTEMS" "" = envGet env₂ "HNAS_FILESYSTEMS" "" := by
    simp [envGet, hFS]
  simp only [postMain, h1, h2, h3]

/-- Claim C9 witness: environments differing only in the session result. -/
theorem C9_witness :
    postMain envA w0 ManifestState.absent 700000 cutJan20 =
      postMain envB w0 ManifestState.absent 700000 cutJan20 :=
  C9_session_result_independent envA envB w0 ManifestState.absent 700000 cutJan20
    (fun k hk => by simp only [envA, envB]; rw [if_neg hk, if_neg hk])

/-- Claim C3 counterexample: the share VeeamNASBackup_bad (which matches
the configured name filter) has only two underscore-separated parts, so the
sweep skips it without entering the timestamp-parsing block: no warning is
logged, contrary to the claim that every share with an unparsable suffix is
skipped and logged.  Moreover an old share with a perfectly parsable suffix
but no objectId field is not deleted, contrary to the unconditional
deletion clause. -/
theorem C3_counterexample :
    pyStartsWith (shareGetName shBad) "VeeamNASBackup" = true
    ∧ shareSweepAction cutJan20 shBad = ShareSweepAction.shortNameSkipped
    ∧ sweepLogsWarning (shareSweepAction cutJan20 shBad) = false
    ∧ strptimeYmdHMS "20200101_000000" = some ⟨2020, 1, 1, 0, 0, 0⟩
    ∧ dtLt ⟨2020, 1, 1, 0, 0, 0⟩ cutJan20 = true
    ∧ shareSweepAction cutJan20 shNoOid = ShareSweepAction.missingObjectId
    ∧ shareDeleteAttempts [shBad, shNoOid] "VeeamNASBackup" cutJan20 = [] := by
  decide

/-- Claim C3 (amended): in the share retention sweep, for every listed
share whose name starts with the configured share-name value: when the name
has at least three underscore-separated parts, its trailing timestamp
suffix parses, the parsed timestamp is strictly before the cutoff and the
share carries a non-empty objectId, the sweep deletes the share; a share
whose suffix parse raises ValueError (at least three parts, bad timestamp)
is skipped and a warning is logged; a share with fewer than three parts
(such as VeeamNASBackup_bad) is skipped silently; no share whose suffix
fails to parse is ever deleted.  VeeamNASBackup_20240115_030000 parses to
2024-01-15 03:00:00. -/
theorem C3_share_retention :
    (∀ (cutoff : PyDateTime) (shares : List SmbShare) (pfx ts : String)
        (sh : SmbShare) (dt : PyDateTime) (oid : String),
        sh ∈ shares → pyStartsWith (shareGetName sh) pfx = true →
        shareSuffixString (shareGetName sh) = some ts →
        strptimeYmdHMS ts = some dt → dtLt dt cutoff = true →
        sh.objectId = some oid → oid ≠ "" →
        oid ∈ shareDeleteAttempts shares pfx cutoff)
    ∧ (∀ (cutoff : PyDateTime) (sh : SmbShare) (ts : String),
        shareSuffixString (shareGetName sh) = some ts → strptimeYmdHMS ts = none →
        shareSweepAction cutoff sh = ShareSweepAction.badTimestampLogged ∧
        sweepLogsWarning (shareSweepAction cutoff sh) = true)
    ∧ (∀ (cutoff : PyDateTime) (sh : SmbShare),
        shareSuffixString (shareGetName sh) = none →
        shareSweepAction cutoff sh = ShareSweepAction.shortNameSkipped ∧
        sweepLogsWarning (shareSweepAction cutoff sh) = false)
    ∧ (∀ (cutoff : PyDateTime) (sh : SmbShare) (ts oid : String),
        shareSuffixString (shareGetName sh) = some ts → strptimeYmdHMS ts = none →
        shareSweepAction cutoff sh ≠ ShareSweepAction.attemptDelete oid)
    ∧ (∀ (cutoff : PyDateTime) (sh : SmbShare) (oid : String),
        shareSuffixString (shareGetName sh) = none →
        shareSweepAction cutoff sh ≠ ShareSweepAction.attemptDelete oid)
    ∧ strptimeYmdHMS "20240115_030000" = some ⟨2024, 1, 15, 3, 0, 0⟩ := by
  refine ⟨?_, ?_, ?_, ?_, ?_, by decide⟩
  · intro cutoff shares pfx ts sh dt oid hmem hpfx hsuf hparse hlt hoid hne
    unfold shareDeleteAttempts
    rw [List.mem_filterMap]
    refine ⟨sh, ?_, ?_⟩
    · unfold matchingShares
      rw [List.mem_filter]
      exact ⟨hmem, hpfx⟩
    · simp [shareSweepAction, hsuf, hparse, hlt, hoid, hne]
  · intro cutoff sh ts hsuf hparse
    have ha : shareSweepAction cutoff sh = ShareSweepAction.badTimestampLogged := by
      simp [shareSweepAction, hsuf, hparse]
    exact ⟨ha, by rw [ha]; rfl⟩
  · intro cutoff sh hsuf
    have ha : shareSweepAction cutoff sh = ShareSweepAction.shortNameSkipped := by
      simp [shareSweepAction, hsuf]
    exact ⟨ha, by rw [ha]; rfl⟩
  · intro cutoff sh ts oid hsuf hparse
    simp [shareSweepAction, hsuf, hparse]
  · intro cutoff sh oid hsuf
    simp [shareSweepAction, hsuf]

/-- Claim C3 witness: the example shares against the 2024-01-20 cutoff. -/
theorem C3_witness :
    "SHOID" ∈ shareDeleteAttempts [shOld, shBadTime, shBad] "VeeamNASBackup" cutJan20
    ∧ shareSweepAction cutJan20 shBadTime = ShareSweepAction.badTimestampLogged
    ∧ sweepLogsWarning (shareSweepAction cutJan20 shBadTime) = true
    ∧ shareSweepAction cutJan20 shBad = ShareSweepAction.shortNameSkipped
    ∧ sweepLogsWarning (shareSweepAction cutJan20 shBad) = false :=
  ⟨C3_share_retention.1 cutJan20 [shOld, shBadTime, shBad] "VeeamNASBackup"
     "20240115_030000" shOld ⟨2024, 1, 15, 3, 0, 0⟩ "SHOID"
     (by decide) (by decide) (by decide) (by decide) (by decide) rfl (by decide),
   (C3_share_retention.2.1 cutJan20 shBadTime "20240115_0a0000" (by decide) (by decide)).1,
   (C3_share_retention.2.1 cutJan20 shBadTime "20240115_0a0000" (by decide) (by decide)).2,
   (C3_share_retention.2.2.1 cutJan20 shBad (by decide)).1,
   (C3_share_retention.2.2.1 cutJan20 shBad (by decide)).2⟩

/-- Claim C7: a reference of exactly 32 characters, all hexadecimal digits
of either case, is treated as an identifier and resolved by direct lookup
(no label scan: the filesystems listing is irrelevant); any other reference
goes through the label lookup, a linear scan returning the first entry with
a case-sensitively equal label or nothing.  The pre-phase and the
post-phase fallback sweep use the same rule. -/
theorem C7_reference_resolution :
    (∀ s, looksLikeFilesystemId_previous s = looksLikeFilesystemId_post s)
    ∧ (∀ s : String, looksLikeFilesystemId_previous s = true ↔
        (s.length = 32 ∧ ∀ c ∈ s.toList, c ∈ "0123456789ABCDEFabcdef".toList))
    ∧ (∀ (w : HNASWorld) (ref : String), looksLikeFilesystemId_previous ref = true →
        preResolveRef w ref =
          match w.fsDetail ref with
          | none => none
          | some d => some (ref, d.label.getD ref))
    ∧ (∀ (w w' : HNASWorld) (ref : String), looksLikeFilesystemId_previous ref = true →
        w.fsDetail = w'.fsDetail → preResolveRef w ref = preResolveRef w' ref)
    ∧ (∀ (fss : List FSEntry) (nm : String),
        get_filesystem_by_name fss nm = fss.find? (fun fs => fs.label == some nm))
    ∧ (∀ (w : HNASWorld) (ref : String), looksLikeFilesystemId_previous ref = false →
        preResolveRef w ref =
          match w.filesystems.find? (fun fs => fs.label == some ref) with
          | none => none
          | some fs =>
              match fs.filesystemId with
              | some i => if i ≠ "" then some (i, fs.label.getD ref) else none
              | none => none)
    ∧ (∀ (w : HNASWorld) (item : String), pyTrim item = item → item ≠ "" →
        looksLikeFilesystemId_post item = true →
        (postFallbackStep w ([], []) item).1 = [item])
    ∧ (∀ (w : HNASWorld) (item : String), pyTrim item = item → item ≠ "" →
        looksLikeFilesystemId_post item = false →
        (postFallbackStep w ([], []) item).1 =
          (match w.filesystems.find? (fun fs => fs.label == some item) with
           | some fs => addTruthy [] fs.filesystemId
           | none => [])) := by
  refine ⟨fun s => rfl, ?_, ?_, ?_, get_filesystem_by_name_eq_find, ?_, ?_, ?_⟩
  · intro s
    unfold looksLikeFilesystemId_previous
    rw [Bool.and_eq_true]
    constructor
    · rintro ⟨h1, h2⟩
      refine ⟨by simpa using h1, ?_⟩
      intro c hc
      have := (List.all_eq_true.mp h2) c hc
      simpa [List.contains] using this
    · rintro ⟨h1, h2⟩
      refine ⟨by simpa using h1, List.all_eq_true.mpr ?_⟩
      intro c hc
      simpa [List.contains] using h2 c hc
  · intro w ref hhex
    simp [preResolveRef, hhex, get_filesystem_info]
  · intro w w' ref hhex hdet
    simp [preResolveRef, hhex, get_filesystem_info, hdet]
  · intro w ref hhex
    simp [preResolveRef, hhex, get_filesystem_by_name_eq_find]
  · intro w item htrim hne hhex
    simp [postFallbackStep, htrim, hne, hhex, setAdd]
  · intro w item htrim hne hhex
    simp only [postFallbackStep, htrim, hne, hhex, if_neg hne, Bool.false_eq_true,
      if_false, get_filesystem_by_name_eq_find]
    cases hf : w.filesystems.find? (fun fs => fs.label == some item) with
    | none => simp [hf]
    | some fs => simp [hf]

/-- Claim C7 witness: a 32-character hexadecimal reference resolves by
direct lookup; fs-alpha goes through the label scan of the example world;
the post-phase fallback handles both the same way. -/
theorem C7_witness :
    preResolveRef wAB hexRef =
      (match wAB.fsDetail hexRef with
       | none => none
       | some d => some (hexRef, d.label.getD hexRef))
    ∧ preResolveRef wAB "fs-alpha" =
      (match wAB.filesystems.find? (fun fs => fs.label == some "fs-alpha") with
       | none => none
       | some fs =>
           match fs.filesystemId with
           | some i => if i ≠ "" then some (i, fs.label.getD "fs-alpha") else none
           | none => none)
    ∧ (postFallbackStep wAB ([], []) hexRef).1 = [hexRef]
    ∧ (postFallbackStep wAB ([], []) "fs-alpha").1 =
      (match wAB.filesystems.find? (fun fs => fs.label == some "fs-alpha") with
       | some fs => addTruthy [] fs.filesystemId
       | none => []) :=
  ⟨C7_reference_resolution.2.2.1 wAB hexRef (by decide),
   C7_reference_resolution.2.2.2.2.2.1 wAB "fs-alpha" (by decide),
   C7_reference_resolution.2.2.2.2.2.2.1 wAB hexRef (by decide) (by decide) (by decide),
   C7_reference_resolution.2.2.2.2.2.2.2 wAB "fs-alpha" (by decide) (by decide) (by decide)⟩

/-- Claim C8: every manifest entry of a pre-phase invocation gets the
snapshot display name tag underscore label underscore runTimestamp, with
the default tag veeam when no tag is configured, and the one run timestamp
passed to every iteration. -/
theorem C8_snapshot_naming :
    ∀ (w : HNASWorld) (cfg : PreConfig) (ts : String) (e : PreEntry),
      e ∈ preEntries w cfg ts →
      e.snapshot_name =
        (if cfg.app_search_id ≠ "" then cfg.app_search_id else "veeam") ++ "_" ++
          e.filesystem_name ++ "_" ++ ts := by
  intro w cfg ts e he
  unfold preEntries at he
  obtain ⟨raw, hmem, hproc⟩ := List.mem_filterMap.mp he
  rw [preProcessRef_snapshot_name w cfg ts raw e hproc]
  by_cases hc : cfg.app_search_id = ""
  · simp [snapshotNameFor, hc]
  · simp [snapshotNameFor, hc]

/-- Claim C8 witness: filesystems fs-alpha and fs-beta with tag veeam and
timestamp 20240115_030000 produce the two expected snapshot names and a
two-entry manifest. -/
theorem C8_witness :
    entryAlpha ∈ preEntries wAB cfgAB "20240115_030000"
    ∧ entryAlpha.snapshot_name =
      (if cfgAB.app_search_id ≠ "" then cfgAB.app_search_id else "veeam") ++ "_" ++
        entryAlpha.filesystem_name ++ "_" ++ "20240115_030000"
    ∧ (preEntries wAB cfgAB "20240115_030000").map (fun e => e.snapshot_name) =
      ["veeam_fs-alpha_20240115_030000", "veeam_fs-beta_20240115_030000"] :=
  ⟨by decide,
   C8_snapshot_naming wAB cfgAB "20240115_030000" entryAlpha (by decide),
   by decide⟩

/-- Claim C6: the pre phase always writes the manifest, after ensuring its
directory exists, even when the created-snapshot list is empty; it reports
a failure exit exactly when zero snapshots were created; and one failed
reference is simply dropped from the run, so a partially successful run
still reports success. -/
theorem C6_manifest_and_exit :
    (∀ (w : HNASWorld) (cfg : PreConfig) (ts : String),
        PreEffect.writeManifest ⟨ts, preEntries w cfg ts, cfg.hnas_host, cfg.app_search_id⟩ ∈
          preMainTail w cfg ts)
    ∧ (∀ (w : HNASWorld) (cfg : PreConfig) (ts : String),
        (preMainTail w cfg ts).head? = some PreEffect.makedirsManifestDir)
    ∧ (∀ (w : HNASWorld) (cfg : PreConfig) (ts : String),
        PreEffect.exitFailure ∈ preMainTail w cfg ts ↔ preEntries w cfg ts = [])
    ∧ (∀ (w : HNASWorld) (cfg : PreConfig) (ts raw : String) (rest : List String),
        preProcessRef w cfg ts raw = none →
        preEntries w { cfg with filesystems := raw :: rest } ts =
          preEntries w { cfg with filesystems := rest } ts)
    ∧ (∀ (w : HNASWorld) (cfg : PreConfig) (ts : String),
        preEntries w cfg ts ≠ [] →
        PreEffect.exitFailure ∉ preMainTail w cfg ts ∧
        PreEffect.printSuccess (preEntries w cfg ts).length ∈ preMainTail w cfg ts) := by
  refine ⟨?_, ?_, ?_, ?_, ?_⟩
  · intro w cfg ts
    simp [preMainTail]
  · intro w cfg ts
    rfl
  · intro w cfg ts
    unfold preMainTail
    rw [List.mem_append]
    by_cases h : (preEntries w cfg ts).length = 0
    · rw [if_pos h]
      simp [List.length_eq_zero.mp h]
    · rw [if_neg h]
      have hne : preEntries w cfg ts ≠ [] := fun hh => h (by rw [hh]; rfl)
      simp [hne]
  · intro w cfg ts raw rest h
    unfold preEntries
    simp only [preProcessRef_filesystems_irrel]
    simp [List.filterMap_cons, h]
  · intro w cfg ts h
    have hl : (preEntries w cfg ts).length ≠ 0 :=
      fun hh => h (List.length_eq_zero.mp hh)
    simp only [preMainTail]
    rw [if_neg hl]
    constructor
    · simp
    · simp

/-- Claim C6 witness: a run where the first reference fails and the second
succeeds writes a one-entry manifest and exits successfully, and a run
where every reference fails still writes the (empty) manifest and exits
with failure. -/
theorem C6_witness :
    preProcessRef wAB cfgAB "20240115_030000" "nope" = none
    ∧ preEntries wAB { cfgAB with filesystems := "nope" :: ["fs-alpha"] } "20240115_030000" =
        preEntries wAB { cfgAB with filesystems := ["fs-alpha"] } "20240115_030000"
    ∧ PreEffect.writeManifest ⟨"20240115_030000", preEntries wAB cfgAllFail "20240115_030000",
        cfgAllFail.hnas_host, cfgAllFail.app_search_id⟩ ∈
        preMainTail wAB cfgAllFail "20240115_030000"
    ∧ preEntries wAB cfgAllFail "20240115_030000" = []
    ∧ PreEffect.exitFailure ∈ preMainTail wAB cfgAllFail "20240115_030000"
    ∧ PreEffect.exitFailure ∉ preMainTail wAB cfgSkip "20240115_030000" :=
  ⟨by decide,
   C6_manifest_and_exit.2.2.2.1 wAB cfgAB "20240115_030000" "nope" ["fs-alpha"] (by decide),
   C6_manifest_and_exit.1 wAB cfgAllFail "20240115_030000",
   by decide,
   (C6_manifest_and_exit.2.2.1 wAB cfgAllFail "20240115_030000").mpr (by decide),
   (C6_manifest_and_exit.2.2.2.2 wAB cfgSkip "20240115_030000" (by decide)).1⟩

/-- Claim C5: the retention sweep runs exactly when the retention window is
positive, and its target sets are untouched by the backup outcome and the
cleanup policy flags; when the loaded manifest supplied entries, the swept
filesystems are the truthy filesystem ids of those entries with virtual
servers resolved by lookup, and otherwise the sweep falls back to the
configured filesystem-reference list resolved with the identifier/label
heuristic. -/
theorem C5_retention_sweep :
    (∀ (w : HNASWorld) (cfg : PostConfig) (bs : Bool) (jr : String)
        (ms : ManifestState) (envFS : String) (now : Int) (scut : PyDateTime),
        (postRun w cfg bs jr ms envFS now scut).sweepRan =
          decide (0 < cfg.retention_days))
    ∧ (∀ (w : HNASWorld) (cfg : PostConfig) (bs₁ bs₂ : Bool) (jr₁ jr₂ : String)
        (cs₁ cs₂ cf₁ cf₂ : Bool) (ms : ManifestState) (envFS : String) (now : Int)
        (scut : PyDateTime),
        let r₁ := postRun w { cfg with cleanup_on_success := cs₁, cleanup_on_failure := cf₁ }
          bs₁ jr₁ ms envFS now scut
        let r₂ := postRun w { cfg with cleanup_on_success := cs₂, cleanup_on_failure := cf₂ }
          bs₂ jr₂ ms envFS now scut
        r₁.sweepRan = r₂.sweepRan ∧
        r₁.sweptFilesystems = r₂.sweptFilesystems ∧
        r₁.sweptVirtualServers = r₂.sweptVirtualServers ∧
        r₁.retentionSnapshotDeletes = r₂.retentionSnapshotDeletes ∧
        r₁.retentionShareDeletes = r₂.retentionShareDeletes)
    ∧ (∀ (w : HNASWorld) (cfg : PostConfig) (bs : Bool) (jr : String)
        (ms : ManifestState) (envFS : String) (now : Int) (scut : PyDateTime),
        0 < cfg.retention_days → manifestEntries ms ≠ [] →
        (postRun w cfg bs jr ms envFS now scut).sweptFilesystems =
          manifestFilesystems (manifestEntries ms) ∧
        (postRun w cfg bs jr ms envFS now scut).sweptVirtualServers =
          lookupVirtualServers w (manifestFilesystems (manifestEntries ms)))
    ∧ (∀ (w : HNASWorld) (cfg : PostConfig) (bs : Bool) (jr : String)
        (ms : ManifestState) (envFS : String) (now : Int) (scut : PyDateTime),
        0 < cfg.retention_days → manifestEntries ms = [] →
        ((postRun w cfg bs jr ms envFS now scut).sweptFilesystems,
         (postRun w cfg bs jr ms envFS now scut).sweptVirtualServers) =
          postFallbackTargets w envFS) := by
  refine ⟨?_, ?_, ?_, ?_⟩
  · intro w cfg bs jr ms envFS now scut
    simp [postRun]
  · intro w cfg bs₁ bs₂ jr₁ jr₂ cs₁ cs₂ cf₁ cf₂ ms envFS now scut
    refine ⟨?_, ?_, ?_, ?_, ?_⟩ <;> simp [postRun]
  · intro w cfg bs jr ms envFS now scut hrd hne
    cases hc : manifestEntries ms with
    | nil => exact absurd hc hne
    | cons a l => exact ⟨by simp [postRun, hc, hrd], by simp [postRun, hc, hrd]⟩
  · intro w cfg bs jr ms envFS now scut hrd hre
    simp [postRun, hre, hrd]

/-- Claim C5 witness: with a seven-day window and both cleanup flags off
after a failed backup, the sweep still runs; with the one-entry manifest it
sweeps that filesystem, and with no manifest it falls back to the
environment list. -/
theorem C5_witness :
    (postRun w0 cfgPost false "Failed" msOne "" 700000 cutJan20).sweepRan =
      decide (0 < cfgPost.retention_days)
    ∧ (postRun w0 cfgPost false "Failed" msOne "" 700000 cutJan20).sweptFilesystems =
      manifestFilesystems (manifestEntries msOne)
    ∧ ((postRun w0 cfgPost false "Failed" ManifestState.absent "fs-alpha" 700000
          cutJan20).sweptFilesystems,
       (postRun w0 cfgPost false "Failed" ManifestState.absent "fs-alpha" 700000
          cutJan20).sweptVirtualServers) =
      postFallbackTargets w0 "fs-alpha"
    ∧ (postRun w0 { cfgPost with cleanup_on_success := false, cleanup_on_failure := false }
          false "Failed" msOne "" 700000 cutJan20).sweptFilesystems =
      (postRun w0 { cfgPost with cleanup_on_success := true, cleanup_on_failure := true }
          true "Success" msOne "" 700000 cutJan20).sweptFilesystems :=
  ⟨C5_retention_sweep.1 w0 cfgPost false "Failed" msOne "" 700000 cutJan20,
   (C5_retention_sweep.2.2.1 w0 cfgPost false "Failed" msOne "" 700000 cutJan20
     (by decide) (by decide)).1,
   C5_retention_sweep.2.2.2 w0 cfgPost false "Failed" ManifestState.absent "fs-alpha"
     700000 cutJan20 (by decide) (by decide),
   (C5_retention_sweep.2.1 w0 cfgPost false true "Failed" "Success" false true false true
     msOne "" 700000 cutJan20).2.1⟩

end HNAS
